import Mathlib

/-!
Verification of the Garment-Pattern-Estimation neural sewing-pattern
pipeline: a shallow embedding of the tensor encoding/decoding of patterns
(`src/nn/pattern_converter.py`), the dataset utilities (`src/nn/data.py`)
and the Maya scene statics check (`src/packages/mayaqltools/mayascene.py`),
with theorems about the behaviour these components promise.
-/

namespace GPE

/-- Shared closeness test of `numpy.isclose` / `torch.isclose`:
`|a - b| ≤ atol + rtol * |b|` (both libraries use this formula, with the
second argument `b` playing the reference role). -/
def isclose (rtol atol a b : ℚ) : Bool := |a - b| ≤ atol + rtol * |b|

/-- Default relative tolerance of `np.isclose` and `torch.isclose` (1e-5). -/
def rtolDefault : ℚ := 1 / 100000

/-- Default absolute tolerance of `np.isclose` and `torch.isclose` (1e-8). -/
def atolDefault : ℚ := 1 / 100000000

-- ----------------- DatasetWrapper split reproducibility (data.py) ---------

/-- Python truthiness of an optional integer (`None` and `0` are falsy). -/
def pyTruthy (x : Option Nat) : Bool := x.getD 0 ≠ 0

/-- The split parameters stored in `DatasetWrapper.split_info`. -/
structure SplitInfo where
  random_seed : Nat
  valid_percent : Nat
  test_percent : Option Nat
deriving DecidableEq

/-- The seed stored by `DatasetWrapper.new_split`:
`random_seed if random_seed else int(time.time())` — the argument is
tested for truthiness, so both `None` and `0` are replaced by the time. -/
def newSplitSeed (random_seed : Option Nat) (time : Nat) : Nat :=
  if pyTruthy random_seed then random_seed.getD 0 else time

/-- `DatasetWrapper.load_split`, with `torch`'s global generator modelled
as a state (a `Nat`): `torch.manual_seed` replaces the state with the
stored seed, and `torch.utils.data.random_split` draws a permutation of
the dataset indices from the current state (`randPerm` abstracts torch's
pseudorandom permutation) and slices it into consecutive chunks in the
order training / validation / test.  Returns the three index lists and
the generator state after seeding. -/
def load_split (randPerm : Nat → Nat → List Nat) (rngState : Nat)
    (info : SplitInfo) (n : Nat) :
    (List Nat × List Nat × Option (List Nat)) × Nat :=
  let _ := rngState  -- the incoming generator state is discarded by re-seeding
  let state := info.random_seed
  let perm := randPerm state n
  let validSize := n * info.valid_percent / 100
  if pyTruthy info.test_percent then
    let testSize := n * info.test_percent.getD 0 / 100
    let trainSize := n - validSize - testSize
    ((perm.take trainSize,
      ((perm.drop trainSize).take validSize,
       some ((perm.drop (trainSize + validSize)).take testSize))), state)
  else
    let trainSize := n - validSize
    ((perm.take trainSize, ((perm.drop trainSize).take validSize, none)), state)

/-- `DatasetWrapper.new_split`: stores the (truthiness-filtered) seed and
the percentages, then derives the split via `load_split`. -/
def new_split (randPerm : Nat → Nat → List Nat) (rngState : Nat)
    (time : Nat) (valid_percent : Nat) (test_percent : Option Nat)
    (random_seed : Option Nat) (n : Nat) :
    (List Nat × List Nat × Option (List Nat)) × Nat :=
  load_split randPerm rngState
    ⟨newSplitSeed random_seed time, valid_percent, test_percent⟩ n

-- ----------------- Pattern converter (pattern_converter.py) ---------------

/-- One row of the numeric edge representation: 2D displacement of the end
vertex plus the two local curvature coordinates (`element_size = 4`). -/
structure Row where
  dx : ℚ
  dy : ℚ
  cx : ℚ
  cy : ℚ
deriving DecidableEq

/-- The all-zero row used to pad panels (`np.zeros_like`). -/
def Row.zero : Row := ⟨0, 0, 0, 0⟩

/-- `np.all(np.isclose(row, 0, atol=1.5))`: every component of the row is
within absolute tolerance 1.5 of zero (the default relative tolerance
contributes nothing against a zero reference). -/
def rowNearZero (r : Row) : Bool :=
  isclose rtolDefault (3/2) r.dx 0 && isclose rtolDefault (3/2) r.dy 0 &&
  isclose rtolDefault (3/2) r.cx 0 && isclose rtolDefault (3/2) r.cy 0

/-- An edge dictionary of a panel spec: its vertex endpoints and optional
curvature. -/
structure EdgeDict where
  endpoints : Nat × Nat
  curvature : Option (ℚ × ℚ)
deriving DecidableEq

/-- `NNSewingPattern._edge_dict`: curvature is dropped when all its
coordinates are within absolute tolerance 0.01 of zero. -/
def edgeDict (vstart vend : Nat) (c : ℚ × ℚ) : EdgeDict :=
  if isclose rtolDefault (1/100) c.1 0 && isclose rtolDefault (1/100) c.2 0
  then ⟨(vstart, vend), none⟩ else ⟨(vstart, vend), some c⟩

/-- A decoded panel: its 2D vertices, its edges, and whether the
"Edge sequence do not return to origin" warning was printed. -/
structure Panel where
  vertices : List (ℚ × ℚ)
  edges : List EdgeDict
  warned : Bool
deriving DecidableEq

/-- The vertex-accumulation loop of `panel_from_numeric`: starting from a
vertex, each row's 2D displacement is added to reach the next vertex;
all intermediate vertices (the start included) are collected. -/
def accum : (ℚ × ℚ) → List Row → List (ℚ × ℚ)
  | v, [] => [v]
  | v, r :: rs => v :: accum (v.1 + r.dx, v.2 + r.dy) rs

/-- Core of `panel_from_numeric` (vertex and edge construction, after any
padding handling): vertices accumulate from the origin over all rows but
the last; the last row lands on `fin`; if `fin` is within absolute
tolerance 3 of the origin in both coordinates the final edge closes onto
vertex 0, otherwise an extra closing vertex is appended and a warning is
emitted.  An empty sequence would hit `edge_sequence[-1]` and raise
an index error in Python. -/
def buildPanel (rows : List Row) : Except String Panel :=
  match rows with
  | [] => Except.error "IndexError"
  | _ :: _ =>
    let n := rows.length
    let verts := accum (0, 0) rows.dropLast
    let inner := (List.range (n - 1)).map
      (fun i => edgeDict i (i + 1) ((rows.getD i Row.zero).cx, (rows.getD i Row.zero).cy))
    let lastRow := rows.getLastD Row.zero
    let fin := (accum (0, 0) rows).getLastD (0, 0)
    if isclose rtolDefault 3 fin.1 0 && isclose rtolDefault 3 fin.2 0 then
      Except.ok ⟨verts, inner ++ [edgeDict (n - 1) 0 (lastRow.cx, lastRow.cy)], false⟩
    else
      Except.ok ⟨verts ++ [fin], inner ++ [edgeDict (n - 1) n (lastRow.cx, lastRow.cy)], true⟩

/-- `NNSewingPattern.panel_from_numeric`: with `padded=True` the rows whose
components are all within absolute tolerance 1.5 of zero are stripped
first, and fewer than 3 remaining rows raise `EmptyPanelError` (a mock
panel). -/
def panelFromNumeric (padded : Bool) (rows : List Row) : Except String Panel :=
  let rows2 := if padded then rows.filter (fun r => ! rowNearZero r) else rows
  if padded && decide (rows2.length < 3) then Except.error "EmptyPanelError"
  else buildPanel rows2

/-- The panel-decoding loop of `pattern_from_tensors`: every slot is tried
with `panel_from_numeric` and `EmptyPanelError` is caught, the failing
slot being skipped; successful slots are kept with their index (panel
names are `panel_<idx>`, modelled by the slot index itself). -/
def decodedPanels (padded : Bool) (panels : List (List Row)) : List (Nat × Panel) :=
  (List.range panels.length).filterMap
    (fun i => match panelFromNumeric padded (panels.getD i []) with
      | Except.ok p => some (i, p)
      | Except.error _ => none)

/-- Decoding one side of a stitch in `pattern_from_tensors`: the
pattern-level edge id is split as `panel_id = id // L` and
`edge = id % L`; a panel id beyond the decoded panel order raises
`InvalidPatternDefError`. -/
def decodeSide (L : Nat) (order : List Nat) (eid : Nat) : Except String (Nat × Nat) :=
  if decide (order.length ≤ eid / L) then Except.error "InvalidPatternDefError"
  else Except.ok (order.getD (eid / L) 0, eid % L)

/-- The stitch-decoding loop of `pattern_from_tensors` over the 2-by-S
index array (one pair of pattern-level edge ids per stitch, decoded in
order, stopping at the first invalid reference). -/
def decodeStitches (L : Nat) (order : List Nat) :
    List (Nat × Nat) → Except String (List ((Nat × Nat) × (Nat × Nat)))
  | [] => Except.ok []
  | s :: rest => do
    let a ← decodeSide L order s.1
    let b ← decodeSide L order s.2
    let ds ← decodeStitches L order rest
    pure ((a, b) :: ds)

/-- A decoded pattern: the surviving panel order (slot indices), the
decoded panels, and the decoded stitches (each side a (panel, edge)
reference, the panel given by its slot index = its name `panel_<idx>`). -/
structure DecodedPattern where
  panelOrder : List Nat
  panels : List Panel
  stitches : List ((Nat × Nat) × (Nat × Nat))
deriving DecidableEq

/-- `NNSewingPattern.pattern_from_tensors`: decode every panel slot
(catching empty panels), then decode the stitch index array against the
surviving panel order; `L` is the per-panel edge dimension of the panel
tensor (`pattern_representation.shape[1]`).  Recovering nonempty stitches
for an unpadded pattern raises `NotImplementedError`; with no stitch info
the stitch list is emptied with only a warning. -/
def patternFromTensors (padded : Bool) (L : Nat) (panels : List (List Row))
    (stitches : Option (List (Nat × Nat))) : Except String DecodedPattern :=
  let dec := decodedPanels padded panels
  let order := dec.map Prod.fst
  match stitches with
  | none => Except.ok ⟨order, dec.map Prod.snd, []⟩
  | some sts =>
    if sts.isEmpty then Except.ok ⟨order, dec.map Prod.snd, []⟩
    else if ! padded then Except.error "NotImplementedError"
    else match decodeStitches L order sts with
      | Except.ok ds => Except.ok ⟨order, dec.map Prod.snd, ds⟩
      | Except.error e => Except.error e

/-- Panel padding in `panel_as_numeric`: the edge sequence is extended to
`L` rows with zero rows. -/
def padPanel (L : Nat) (rows : List Row) : List Row :=
  rows ++ List.replicate (L - rows.length) Row.zero

/-- The stitch encoding of `pattern_as_tensors`: each side of a stitch is
stored as the pattern-level edge id `panel_id * L + edge_id`, where
`panel_id` is the panel's position in the encoder's panel traversal
order (sides are given here directly by that position). -/
def encodeStitches (L : Nat) (sts : List ((Nat × Nat) × (Nat × Nat))) :
    List (Nat × Nat) :=
  sts.map (fun s => (s.1.1 * L + s.1.2, s.2.1 * L + s.2.2))

/-- The panel tensor built by `pattern_as_tensors` with
`pad_panels_to_len = L`: every panel's edge sequence padded to `L` rows
(a panel longer than `L` raises `ValueError` in `panel_as_numeric`). -/
def patternAsTensorsPanels (L : Nat) (panels : List (List Row)) :
    Except String (List (List Row)) :=
  if panels.any (fun p => decide (L < p.length)) then Except.error "ValueError"
  else Except.ok (panels.map (padPanel L))

-- ----------------- Norm statistics (data.py _get_norm_stats) --------------

/-- Minimum of a nonempty list, Python/torch style (`torch.min` along the
batch dimension); 0 is returned for the empty list torch would reject. -/
def listMin : List ℚ → ℚ
  | [] => 0
  | x :: xs => xs.foldl min x

/-- Maximum of a nonempty list (`torch.max` along the batch dimension). -/
def listMax : List ℚ → ℚ
  | [] => 0
  | x :: xs => xs.foldl max x

/-- Column `i` of a flattened batch (the values of the `i`-th component of
the last dimension across the batch). -/
def column (batch : List (List ℚ)) (i : Nat) : List ℚ :=
  batch.map (fun row => row.getD i 0)

/-- The per-dimension scale computed by `_get_norm_stats`:
`tmax - tmin`, except that when `torch.isclose(tmin, tmax)` (default
tolerances) the scale falls back to `tmin`, or to 1 when `tmin` is also
close to zero — the division-by-zero guard. -/
def normScale (tmin tmax : ℚ) : ℚ :=
  if isclose rtolDefault atolDefault tmin tmax then
    (if isclose rtolDefault atolDefault tmin 0 then 1 else tmin)
  else tmax - tmin

/-- `GarmentBaseDataset._get_norm_stats` (unpadded path): per-dimension
min as shift, and the guarded `normScale` of min and max as scale, for a
batch flattened to rows of width `d`. -/
def getNormStats (batch : List (List ℚ)) (d : Nat) : List ℚ × List ℚ :=
  ((List.range d).map (fun i => listMin (column batch i)),
   (List.range d).map (fun i => normScale (listMin (column batch i)) (listMax (column batch i))))

-- ----------------- Stitch tags (data.py tags_to_stitches) -----------------

/-- The zero-tag test of `tags_to_stitches`:
`torch.isclose(tag, zero_tag, 0.01)` — the literal `0.01` is the third
positional argument of `torch.isclose`, i.e. the RELATIVE tolerance; the
absolute tolerance stays at its default 1e-8. -/
def tagNearZero (t : List ℚ) : Bool :=
  t.all (fun x => isclose (1/100) atolDefault x 0)

/-- The pair test of `tags_to_stitches`:
`torch.isclose(tag1, tag2, 0.1)` — again the literal `0.1` is the
relative tolerance, with absolute tolerance 1e-8. -/
def tagsClose (t1 t2 : List ℚ) : Bool :=
  (t1.zip t2).all (fun p => isclose (1/10) atolDefault p.1 p.2)

/-- The stitch tag stored for edge `e` of panel `p`. -/
def tagAt (tags : List (List (List ℚ))) (pe : Nat × Nat) : List ℚ :=
  (tags.getD pe.1 []).getD pe.2 []

/-- The candidate collection loop of `tags_to_stitches`: every
(panel, edge) position, in row-major order, whose tag is not `tagNearZero`. -/
def candidateEdges (tags : List (List (List ℚ))) : List (Nat × Nat) :=
  (List.range tags.length).flatMap (fun p =>
    (List.range ((tags.getD p []).length)).filterMap (fun e =>
      if tagNearZero (tagAt tags (p, e)) then none else some (p, e)))

/-- The quadratic pairing loop of `tags_to_stitches`: every ordered-by-
position pair of candidates whose tags pass `tagsClose` is reported. -/
def pairCandidates (tags : List (List (List ℚ))) :
    List (Nat × Nat) → List ((Nat × Nat) × (Nat × Nat))
  | [] => []
  | c :: rest =>
    (rest.filterMap (fun c2 =>
      if tagsClose (tagAt tags c) (tagAt tags c2) then some (c, c2) else none))
      ++ pairCandidates tags rest

/-- `Garment3DPatternFullDataset.tags_to_stitches`: collect candidate
edges (tags not near zero), then pair them by tag closeness. -/
def tagsToStitches (tags : List (List (List ℚ))) :
    List ((Nat × Nat) × (Nat × Nat)) :=
  pairCandidates tags (candidateEdges tags)

-- ----------------- Standardization (data.py standardize) ------------------

/-- The `shift`/`scale` statistics stored under `config['standardize']` by
`GarmentPanelDataset`. -/
structure PanelStats where
  shift : List ℚ
  scale : List ℚ
deriving DecidableEq

/-- The statistics stored under `config['standardize']` by
`Garment3DPatternFullDataset` (ground-truth entries keyed by name). -/
structure FullStats where
  f_shift : List ℚ
  f_scale : List ℚ
  gt_shift : List (String × List ℚ)
  gt_scale : List (String × List ℚ)
deriving DecidableEq

/-- A member of a dataset's transform list. -/
inductive Transform where
  | featureStd (shift scale : List ℚ)
  | gtStd (shift scale : List (String × List ℚ))
  | otherTransform (id : Nat)
deriving DecidableEq

/-- Whether a transform is a `FeatureStandartization` instance. -/
def Transform.isFeatureStd : Transform → Bool
  | .featureStd _ _ => true
  | _ => false

/-- Whether a transform is a `GTtandartization` instance. -/
def Transform.isGtStd : Transform → Bool
  | .gtStd _ _ => true
  | _ => false

/-- `GarmentPanelDataset.standardize`: if `standardize` is present in the
config its stats are used as-is; otherwise stats are computed from the
supplied training subset (`computeStats` abstracts the mean/std pass over
the training batch) and stored; with neither, `ValueError` is raised.
The transform list is cleaned of `FeatureStandartization` duplicates and
the new transform appended.  Returns the new `config['standardize']`
entry and the new transform list. -/
def garmentPanelStandardize {τ : Type} (computeStats : τ → PanelStats)
    (cfg : Option PanelStats) (transforms : List Transform)
    (training : Option τ) : Except String (Option PanelStats × List Transform) :=
  match cfg with
  | some stats =>
    Except.ok (some stats,
      transforms.filter (fun t => ! t.isFeatureStd)
        ++ [Transform.featureStd stats.shift stats.scale])
  | none =>
    match training with
    | some tr =>
      let stats := computeStats tr
      Except.ok (some stats,
        transforms.filter (fun t => ! t.isFeatureStd)
          ++ [Transform.featureStd stats.shift stats.scale])
    | none => Except.error "ValueError"

/-- `Garment3DPatternFullDataset.standardize`: same priority rule, with
stats covering features and ground truth, the cleanup removing both
`GTtandartization` and `FeatureStandartization`, and both transforms
appended (ground-truth standardization first). -/
def garmentFullStandardize {τ : Type} (computeStats : τ → FullStats)
    (cfg : Option FullStats) (transforms : List Transform)
    (training : Option τ) : Except String (Option FullStats × List Transform) :=
  match cfg with
  | some stats =>
    Except.ok (some stats,
      transforms.filter (fun t => ! t.isGtStd && ! t.isFeatureStd)
        ++ [Transform.gtStd stats.gt_shift stats.gt_scale,
            Transform.featureStd stats.f_shift stats.f_scale])
  | none =>
    match training with
    | some tr =>
      let stats := computeStats tr
      Except.ok (some stats,
        transforms.filter (fun t => ! t.isGtStd && ! t.isFeatureStd)
          ++ [Transform.gtStd stats.gt_shift stats.gt_scale,
              Transform.featureStd stats.f_shift stats.f_scale])
    | none => Except.error "ValueError"

-- ----------------- SampleToTensor (data.py) --------------------------------

/-- A raw ground-truth value of a sample: a numeric array or a dictionary
of named arrays. -/
inductive GtValue where
  | arr (v : List ℚ)
  | dict (v : List (String × List ℚ))
deriving DecidableEq

/-- A Python value produced by the `SampleToTensor` transform: a torch
tensor, a dictionary of tensors, or a 1-element tuple (what a trailing
comma builds). -/
inductive TorchValue where
  | tensor (v : List ℚ)
  | tensorDict (v : List (String × List ℚ))
  | tuple1 (v : TorchValue)
deriving DecidableEq

/-- A raw sample fed to `SampleToTensor`: optional features array,
optional ground truth, and a name. -/
structure RawSample where
  features : Option (List ℚ)
  ground_truth : Option GtValue
  name : String
deriving DecidableEq

/-- The sample returned by `SampleToTensor`. -/
structure TensorSample where
  features : TorchValue
  ground_truth : TorchValue
  name : String
deriving DecidableEq

/-- `SampleToTensor.__call__`: features become a tensor (an empty tensor
when absent); a dict ground truth becomes a dict of tensors via
`_dict_to_tensors`; any other ground truth goes through the line
`new_gt = torch.from_numpy(gt).float() if gt is not None else torch.Tensor(),`
whose trailing comma makes `new_gt` a 1-element TUPLE holding the tensor
(or the empty-tensor sentinel); the name is passed through. -/
def sampleToTensor (s : RawSample) : TensorSample :=
  let newGt : TorchValue :=
    match s.ground_truth with
    | some (GtValue.dict d) => TorchValue.tensorDict d
    | some (GtValue.arr v) => TorchValue.tuple1 (TorchValue.tensor v)
    | none => TorchValue.tuple1 (TorchValue.tensor [])
  { features := match s.features with
      | some v => TorchValue.tensor v
      | none => TorchValue.tensor []
    ground_truth := newGt
    name := s.name }

-- ----------------- Maya garment statics (mayascene.py is_static) ----------

/-- Per-vertex L1 displacement between two 3D snapshots of a vertex. -/
def l1dist (a b : ℚ × ℚ × ℚ) : ℚ :=
  |a.1 - b.1| + |a.2.1 - b.2.1| + |a.2.2 - b.2.2|

/-- `MayaGarment.is_static`: on the very first call (`last_verts is None`)
the garment reports not-static (the Python code returns a bare `False`
there, modelled as the pair `(false, none)`); otherwise the vertices
whose L1 displacement between the last two snapshots strictly exceeds
`threshold` are counted, and the garment is static exactly when that
count is zero or strictly below
`len(current_verts) * 0.01 * allowed_non_static_percent`. -/
def isStatic (last : Option (List (ℚ × ℚ × ℚ))) (current : List (ℚ × ℚ × ℚ))
    (threshold allowed : ℚ) : Bool × Option Nat :=
  match last with
  | none => (false, none)
  | some lv =>
    let nonStatic := ((current.zip lv).filter
      (fun p => decide (threshold < l1dist p.1 p.2))).length
    if nonStatic = 0 ∨ (nonStatic : ℚ) < (current.length : ℚ) * (1/100) * allowed
    then (true, some nonStatic) else (false, some nonStatic)

-- ----------------- Auxiliary definitions ----------------------------------

/-- The total 2D displacement of an edge sequence (the landing point of
its final edge when following the edges from the origin). -/
def rowSum (rows : List Row) : ℚ × ℚ :=
  rows.foldl (fun w r => (w.1 + r.dx, w.2 + r.dy)) (0, 0)

/-- Whether a decode attempt succeeded (`True`-branch of the
`try/except EmptyPanelError` in `pattern_from_tensors`). -/
def exOk {ε α : Type} : Except ε α → Bool
  | Except.ok _ => true
  | Except.error _ => false

/-- A concrete predicted stitch tag whose every component, 1/200 = 0.005,
is within 0.01 of zero. -/
def c2tag : List ℚ := [1/200, 1/200, 1/200]

/-- The degenerate panel of the C1 counterexample: three edges whose rows
are each entirely within the padding tolerance 1.5 of zero. -/
def c1tinyPanels : List (List Row) := [[⟨1, 1, 0, 0⟩, ⟨1, 1, 0, 0⟩, ⟨1, 1, 0, 0⟩]]

/-- The single stitch of the C1 counterexample, joining edges 0 and 1 of
panel 0 — a stitch referencing existing panels and edges. -/
def c1sts : List ((Nat × Nat) × (Nat × Nat)) := [((0, 0), (0, 1))]

-- ======================= Theorems =========================================

/-- The division-by-zero guard of `_get_norm_stats` really works: the
produced scale is nonzero for every min/max pair. -/
lemma normScale_ne_zero (tmin tmax : ℚ) : normScale tmin tmax ≠ 0 := by
  unfold normScale
  by_cases hcl : isclose rtolDefault atolDefault tmin tmax = true
  · by_cases hz : isclose rtolDefault atolDefault tmin 0 = true
    · simp [hcl, hz]
    · simp only [hcl, if_true, hz, if_false, Bool.false_eq_true]
      intro h
      apply hz
      rw [h]
      simp [isclose, atolDefault, rtolDefault]
  · simp only [hcl, Bool.false_eq_true, if_false]
    intro h
    apply hcl
    have heq : tmin = tmax := by
      have := sub_eq_zero.mp h
      linarith
    rw [heq]
    simp [isclose, atolDefault, rtolDefault]
    positivity

lemma accum_length (rows : List Row) : ∀ v : ℚ × ℚ, (accum v rows).length = rows.length + 1 := by
  induction rows with
  | nil => intro v; rfl
  | cons r rs ih => intro v; simp [accum, ih]

lemma accum_getD_zero (rows : List Row) (v d : ℚ × ℚ) :
    (accum v rows).getD 0 d = v := by
  cases rows <;> rfl

lemma accum_getD_succ (rows : List Row) : ∀ (v d : ℚ × ℚ) (i : Nat), i < rows.length →
    (accum v rows).getD (i + 1) d
      = (((accum v rows).getD i d).1 + (rows.getD i Row.zero).dx,
         ((accum v rows).getD i d).2 + (rows.getD i Row.zero).dy) := by
  induction rows with
  | nil => intro v d i h; exact absurd h (Nat.not_lt_zero i)
  | cons r rs ih =>
    intro v d i h
    cases i with
    | zero =>
      simp only [accum, List.getD_cons_succ, List.getD_cons_zero, accum_getD_zero]
    | succ j =>
      have hj : j < rs.length := Nat.lt_of_succ_lt_succ h
      simp only [accum, List.getD_cons_succ]
      exact ih (v.1 + r.dx, v.2 + r.dy) d j hj

lemma accum_getLastD (rows : List Row) : ∀ (v d : ℚ × ℚ),
    (accum v rows).getLastD d
      = rows.foldl (fun w r => (w.1 + r.dx, w.2 + r.dy)) v := by
  induction rows with
  | nil => intro v d; rfl
  | cons r rs ih =>
    intro v d
    simp only [accum, List.getLastD_cons, List.foldl_cons]
    exact ih (v.1 + r.dx, v.2 + r.dy) v

lemma edgeDict_endpoints (vstart vend : Nat) (c : ℚ × ℚ) :
    (edgeDict vstart vend c).endpoints = (vstart, vend) := by
  unfold edgeDict
  split <;> rfl

lemma verts_getD_step (rows : List Row) (i : Nat) (h : i + 1 < rows.length) :
    (accum (0, 0) rows.dropLast).getD (i + 1) (47, 47)
      = (((accum (0, 0) rows.dropLast).getD i (47, 47)).1 + (rows.getD i Row.zero).dx,
         ((accum (0, 0) rows.dropLast).getD i (47, 47)).2 + (rows.getD i Row.zero).dy) := by
  have hdl : i < rows.dropLast.length := by
    rw [List.length_dropLast]; omega
  have h2 : i < rows.length := by omega
  have hgd : rows.dropLast.getD i Row.zero = rows.getD i Row.zero := by
    rw [List.getD_eq_getElem _ _ hdl, List.getD_eq_getElem _ _ h2, List.getElem_dropLast]
  rw [accum_getD_succ rows.dropLast (0, 0) (47, 47) i hdl, hgd]

/-- C3: `panel_from_numeric` reconstructs vertices by accumulating the 2D
edge displacements from the origin; when the landing point of the final
edge is within absolute tolerance 3 of the origin in both coordinates the
final edge closes onto vertex 0 with no extra vertex, otherwise an extra
closing vertex (the landing point itself) is appended and only a warning
is emitted — in both cases the call returns a panel and raises no error. -/
theorem c3_panel_from_numeric_closes_without_error
    (rows : List Row) (hne : rows ≠ []) :
    ∃ p, panelFromNumeric false rows = Except.ok p ∧
      p.vertices.getD 0 (47, 47) = (0, 0) ∧
      (∀ i, i + 1 < rows.length →
        p.vertices.getD (i + 1) (47, 47)
          = ((p.vertices.getD i (47, 47)).1 + (rows.getD i Row.zero).dx,
             (p.vertices.getD i (47, 47)).2 + (rows.getD i Row.zero).dy)) ∧
      (if (isclose rtolDefault 3 (rowSum rows).1 0
            && isclose rtolDefault 3 (rowSum rows).2 0) = true then
        p.vertices.length = rows.length ∧ p.warned = false ∧
          p.edges.getLast?.map EdgeDict.endpoints = some (rows.length - 1, 0)
      else
        p.vertices.length = rows.length + 1 ∧ p.warned = true ∧
          p.edges.getLast?.map EdgeDict.endpoints
            = some (rows.length - 1, rows.length) ∧
          p.vertices.getLastD (47, 47) = rowSum rows) := by
  cases rows with
  | nil => exact absurd rfl hne
  | cons r rs =>
    have hfin : (accum (0, 0) (r :: rs)).getLastD (0, 0) = rowSum (r :: rs) :=
      accum_getLastD (r :: rs) (0, 0) (0, 0)
    have hpf : panelFromNumeric false (r :: rs) = buildPanel (r :: rs) := rfl
    have hvlen : (accum (0, 0) (r :: rs).dropLast).length = rs.length + 1 := by
      rw [accum_length, List.length_dropLast]
      simp
    rw [hpf]
    simp only [buildPanel, hfin]
    by_cases hc : (isclose rtolDefault 3 (rowSum (r :: rs)).1 0
        && isclose rtolDefault 3 (rowSum (r :: rs)).2 0) = true
    · rw [if_pos hc]
      refine ⟨_, rfl, ?_, ?_, ?_⟩
      · exact accum_getD_zero _ _ _
      · intro i hi
        exact verts_getD_step (r :: rs) i hi
      · rw [if_pos hc]
        refine ⟨?_, rfl, ?_⟩
        · simpa using hvlen
        · rw [List.getLast?_concat]
          simp [edgeDict_endpoints]
    · rw [if_neg hc]
      refine ⟨_, rfl, ?_, ?_, ?_⟩
      · rw [List.getD_append _ _ _ 0 (by omega)]
        exact accum_getD_zero _ _ _
      · intro i hi
        simp only [List.length_cons] at hi
        rw [List.getD_append _ _ _ (i + 1) (by omega),
            List.getD_append _ _ _ i (by omega)]
        exact verts_getD_step (r :: rs) i (by simpa using hi)
      · rw [if_neg hc]
        refine ⟨?_, rfl, ?_, ?_⟩
        · rw [List.length_append, hvlen]
          simp
        · rw [List.getLast?_concat]
          simp [edgeDict_endpoints]
        · rw [List.getLastD_concat]

/-- Witness for C3 on the single-edge sequence [(1, 0, 0, 0)]: the landing
point (1, 0) is within 3 of the origin, so the panel closes onto vertex 0
with exactly one vertex and no error. -/
theorem c3_panel_from_numeric_witness :
    ∃ p, panelFromNumeric false [⟨1, 0, 0, 0⟩] = Except.ok p ∧
      p.vertices.getD 0 (47, 47) = (0, 0) ∧
      (∀ i, i + 1 < [(⟨1, 0, 0, 0⟩ : Row)].length →
        p.vertices.getD (i + 1) (47, 47)
          = ((p.vertices.getD i (47, 47)).1 + ([(⟨1, 0, 0, 0⟩ : Row)].getD i Row.zero).dx,
             (p.vertices.getD i (47, 47)).2 + ([(⟨1, 0, 0, 0⟩ : Row)].getD i Row.zero).dy)) ∧
      (if (isclose rtolDefault 3 (rowSum [⟨1, 0, 0, 0⟩]).1 0
            && isclose rtolDefault 3 (rowSum [⟨1, 0, 0, 0⟩]).2 0) = true then
        p.vertices.length = [(⟨1, 0, 0, 0⟩ : Row)].length ∧ p.warned = false ∧
          p.edges.getLast?.map EdgeDict.endpoints
            = some ([(⟨1, 0, 0, 0⟩ : Row)].length - 1, 0)
      else
        p.vertices.length = [(⟨1, 0, 0, 0⟩ : Row)].length + 1 ∧ p.warned = true ∧
          p.edges.getLast?.map EdgeDict.endpoints
            = some ([(⟨1, 0, 0, 0⟩ : Row)].length - 1, [(⟨1, 0, 0, 0⟩ : Row)].length) ∧
          p.vertices.getLastD (47, 47) = rowSum [⟨1, 0, 0, 0⟩]) :=
  c3_panel_from_numeric_closes_without_error [⟨1, 0, 0, 0⟩] (by simp)

lemma filterMap_ok_map_fst (f : Nat → Except String Panel) (l : List Nat) :
    (l.filterMap (fun i => match f i with
        | Except.ok p => some (i, p)
        | Except.error _ => none)).map Prod.fst
      = l.filter (fun i => exOk (f i)) := by
  induction l with
  | nil => rfl
  | cons a l ih =>
    cases hfa : f a with
    | ok p => simp [List.filterMap_cons, hfa, List.filter_cons, exOk, ih]
    | error e => simp [List.filterMap_cons, hfa, List.filter_cons, exOk, ih]

lemma decodedPanels_map_fst (padded : Bool) (panels : List (List Row)) :
    (decodedPanels padded panels).map Prod.fst
      = (List.range panels.length).filter
          (fun j => exOk (panelFromNumeric padded (panels.getD j []))) := by
  unfold decodedPanels
  exact filterMap_ok_map_fst _ _

/-- Stripping leaves fewer than 3 rows → `EmptyPanelError`. -/
lemma panelFromNumeric_short (rows : List Row)
    (h : (rows.filter (fun r => ! rowNearZero r)).length < 3) :
    panelFromNumeric true rows = Except.error "EmptyPanelError" := by
  unfold panelFromNumeric
  simp [h]

lemma rowNearZero_zero : rowNearZero Row.zero = true := by
  norm_num [rowNearZero, Row.zero, isclose, rtolDefault]

/-- C4: with `padded=True`, rows whose components are all within 1.5 of
zero are stripped first and fewer than 3 surviving rows raise
`EmptyPanelError` — in particular every all-near-zero (padding) panel
slot raises it; `pattern_from_tensors` catches the error, so decoding
still succeeds, the failing slot is absent from the decoded panel order,
and the panel order is exactly the successfully decoded slots in order. -/
theorem c4_padding_panels_never_decoded (L : Nat) (panels : List (List Row))
    (i : Nat) (hi : i < panels.length)
    (hz : ∀ r ∈ panels.getD i [], rowNearZero r = true) :
    panelFromNumeric true (panels.getD i []) = Except.error "EmptyPanelError" ∧
    ∃ pat, patternFromTensors true L panels none = Except.ok pat ∧
      pat.panelOrder = (List.range panels.length).filter
        (fun j => exOk (panelFromNumeric true (panels.getD j []))) ∧
      i ∉ pat.panelOrder := by
  have herr : panelFromNumeric true (panels.getD i []) = Except.error "EmptyPanelError" := by
    apply panelFromNumeric_short
    have hempty : (panels.getD i []).filter (fun r => ! rowNearZero r) = [] := by
      rw [List.filter_eq_nil_iff]
      intro r hr
      simp [hz r hr]
    rw [hempty]
    simp
  refine ⟨herr, ⟨_, rfl, ?_, ?_⟩⟩
  · exact decodedPanels_map_fst true panels
  · rw [decodedPanels_map_fst true panels]
    intro hmem
    rcases List.mem_filter.mp hmem with ⟨-, hok⟩
    rw [herr] at hok
    simp [exOk] at hok

/-- Witness for C4: a two-slot tensor whose first slot is four zero
(padding) rows: the first slot raises `EmptyPanelError` and is absent
from the decoded panel order. -/
theorem c4_padding_panels_never_decoded_witness :
    panelFromNumeric true ([[Row.zero, Row.zero, Row.zero, Row.zero],
        [⟨10, 0, 0, 0⟩, ⟨0, 10, 0, 0⟩, ⟨(-10), (-10), 0, 0⟩, Row.zero]].getD 0 [])
      = Except.error "EmptyPanelError" ∧
    ∃ pat, patternFromTensors true 4 [[Row.zero, Row.zero, Row.zero, Row.zero],
        [⟨10, 0, 0, 0⟩, ⟨0, 10, 0, 0⟩, ⟨(-10), (-10), 0, 0⟩, Row.zero]] none = Except.ok pat ∧
      pat.panelOrder = (List.range ([[Row.zero, Row.zero, Row.zero, Row.zero],
          [⟨10, 0, 0, 0⟩, ⟨0, 10, 0, 0⟩, ⟨(-10), (-10), 0, 0⟩, Row.zero]] : List (List Row)).length).filter
        (fun j => exOk (panelFromNumeric true ([[Row.zero, Row.zero, Row.zero, Row.zero],
            [⟨10, 0, 0, 0⟩, ⟨0, 10, 0, 0⟩, ⟨(-10), (-10), 0, 0⟩, Row.zero]].getD j []))) ∧
      0 ∉ pat.panelOrder :=
  c4_padding_panels_never_decoded 4
    [[Row.zero, Row.zero, Row.zero, Row.zero],
     [⟨10, 0, 0, 0⟩, ⟨0, 10, 0, 0⟩, ⟨(-10), (-10), 0, 0⟩, Row.zero]]
    0 (by decide) (by simp [rowNearZero_zero])

lemma strip_padPanel (L : Nat) (p : List Row)
    (hnz : ∀ r ∈ p, rowNearZero r = false) :
    (padPanel L p).filter (fun r => ! rowNearZero r) = p := by
  unfold padPanel
  rw [List.filter_append]
  have h1 : p.filter (fun r => ! rowNearZero r) = p := by
    apply List.filter_eq_self.mpr
    intro r hr
    simp [hnz r hr]
  have h2 : (List.replicate (L - p.length) Row.zero).filter
      (fun r => ! rowNearZero r) = [] := by
    rw [List.filter_eq_nil_iff]
    intro r hr
    rw [List.eq_of_mem_replicate hr]
    simp [rowNearZero_zero]
  rw [h1, h2, List.append_nil]

lemma panelFromNumeric_padded_eq (L : Nat) (p : List Row)
    (h3 : 3 ≤ p.length) (hnz : ∀ r ∈ p, rowNearZero r = false) :
    panelFromNumeric true (padPanel L p) = buildPanel p := by
  unfold panelFromNumeric
  rw [strip_padPanel L p hnz]
  have h : ¬ (p.length < 3) := by omega
  simp [h]

lemma buildPanel_ok (p : List Row) (hne : p ≠ []) : exOk (buildPanel p) = true := by
  cases p with
  | nil => exact absurd rfl hne
  | cons r rs =>
    simp only [buildPanel]
    split <;> rfl

lemma decodeSide_encode (L n p e : Nat) (hp : p < n) (he : e < L) :
    decodeSide L (List.range n) (p * L + e) = Except.ok (p, e) := by
  have hL : 0 < L := by omega
  have hdiv : (p * L + e) / L = p := by
    rw [Nat.add_comm, Nat.mul_comm, Nat.add_mul_div_left _ _ hL,
        Nat.div_eq_of_lt he, Nat.zero_add]
  have hmod : (p * L + e) % L = e := by
    rw [Nat.add_comm, Nat.add_mul_mod_self_right, Nat.mod_eq_of_lt he]
  unfold decodeSide
  simp only [hdiv, hmod, List.length_range]
  rw [if_neg (by simpa using Nat.not_le.mpr hp)]
  rw [List.getD_eq_getElem _ _ (by simpa using hp), List.getElem_range]

lemma decodeStitches_encode (L n : Nat)
    (sts : List ((Nat × Nat) × (Nat × Nat)))
    (h : ∀ s ∈ sts, s.1.1 < n ∧ s.1.2 < L ∧ s.2.1 < n ∧ s.2.2 < L) :
    decodeStitches L (List.range n) (encodeStitches L sts) = Except.ok sts := by
  induction sts with
  | nil => rfl
  | cons s rest ih =>
    obtain ⟨h11, h12, h21, h22⟩ := h s (List.mem_cons_self s rest)
    have hrest := ih (fun t ht => h t (List.mem_cons_of_mem s ht))
    simp only [encodeStitches, List.map_cons] at hrest ⊢
    simp only [decodeStitches] at hrest ⊢
    simp [decodeSide_encode L n s.1.1 s.1.2 h11 h12,
          decodeSide_encode L n s.2.1 s.2.2 h21 h22, hrest]
    rfl

/-- C1 (amended): the stitch encode/decode round trip.  For every pattern
whose panels each have at most `L` edges, at least 3 edges, and no edge
row entirely within the padding tolerance 1.5 of zero, and whose stitches
reference existing panels and edges, encoding each stitch side as
`panel_index * L + edge_index` over the `L`-padded panel tensor and
decoding with `pattern_from_tensors (padded=True)` reproduces every real
stitch's two (panel, edge) references, with panel indices matching the
encoder's panel traversal order. -/
theorem c1_stitch_round_trip_amended (L : Nat) (panels : List (List Row))
    (sts : List ((Nat × Nat) × (Nat × Nat)))
    (hpan : ∀ p ∈ panels, p.length ≤ L ∧ 3 ≤ p.length ∧
      ∀ r ∈ p, rowNearZero r = false)
    (hsts : ∀ s ∈ sts, s.1.1 < panels.length ∧
      s.1.2 < (panels.getD s.1.1 []).length ∧ s.2.1 < panels.length ∧
      s.2.2 < (panels.getD s.2.1 []).length) :
    ∃ pat, patternFromTensors true L (panels.map (padPanel L))
        (some (encodeStitches L sts)) = Except.ok pat ∧
      pat.panelOrder = List.range panels.length ∧
      pat.stitches = sts := by
  have horder : (decodedPanels true (panels.map (padPanel L))).map Prod.fst
      = List.range panels.length := by
    rw [decodedPanels_map_fst, List.length_map]
    apply List.filter_eq_self.mpr
    intro j hj
    rw [List.mem_range] at hj
    have hmapget : (panels.map (padPanel L)).getD j [] = padPanel L (panels.getD j []) := by
      rw [List.getD_eq_getElem _ _ (by simpa using hj),
          List.getD_eq_getElem _ _ hj, List.getElem_map]
    have hmem : panels.getD j [] ∈ panels := by
      rw [List.getD_eq_getElem _ _ hj]
      exact List.getElem_mem hj
    obtain ⟨-, h3, hnz⟩ := hpan _ hmem
    rw [hmapget, panelFromNumeric_padded_eq L _ h3 hnz]
    apply buildPanel_ok
    intro hnil
    rw [hnil] at h3
    simp at h3
  have hb : ∀ s ∈ sts, s.1.1 < panels.length ∧ s.1.2 < L ∧
      s.2.1 < panels.length ∧ s.2.2 < L := by
    intro s hs
    obtain ⟨h1, h2, h3, h4⟩ := hsts s hs
    have hm1 : panels.getD s.1.1 [] ∈ panels := by
      rw [List.getD_eq_getElem _ _ h1]
      exact List.getElem_mem h1
    have hm2 : panels.getD s.2.1 [] ∈ panels := by
      rw [List.getD_eq_getElem _ _ h3]
      exact List.getElem_mem h3
    exact ⟨h1, lt_of_lt_of_le h2 (hpan _ hm1).1, h3,
      lt_of_lt_of_le h4 (hpan _ hm2).1⟩
  have hdec : decodeStitches L (List.range panels.length) (encodeStitches L sts)
      = Except.ok sts := decodeStitches_encode L panels.length sts hb
  refine ⟨⟨List.range panels.length,
    (decodedPanels true (panels.map (padPanel L))).map Prod.snd, sts⟩, ?_, rfl, rfl⟩
  cases sts with
  | nil =>
    simp only [patternFromTensors, encodeStitches, List.map_nil, List.isEmpty_nil,
      if_true, horder]
  | cons s rest =>
    simp only [patternFromTensors, encodeStitches, List.map_cons, List.isEmpty_cons,
      Bool.not_true, Bool.false_eq_true, if_false, horder]
    simp only [encodeStitches, List.map_cons] at hdec
    rw [hdec]

/-- C1 counterexample to the claim as stated: a pattern whose only panel
has 3 edges (at most L = 3, stitches reference existing panels and
edges), yet whose edge rows all lie within the padding-stripping
tolerance 1.5: encoding succeeds, but decoding strips the whole panel as
padding and then fails with `InvalidPatternDefError` instead of
reproducing the stitch references. -/
theorem c1_stitch_round_trip_counterexample :
    (∀ p ∈ c1tinyPanels, p.length ≤ 3) ∧
    (∀ s ∈ c1sts, s.1.1 < c1tinyPanels.length ∧
      s.1.2 < (c1tinyPanels.getD s.1.1 []).length ∧
      s.2.1 < c1tinyPanels.length ∧
      s.2.2 < (c1tinyPanels.getD s.2.1 []).length) ∧
    patternAsTensorsPanels 3 c1tinyPanels
      = Except.ok (c1tinyPanels.map (padPanel 3)) ∧
    patternFromTensors true 3 (c1tinyPanels.map (padPanel 3))
        (some (encodeStitches 3 c1sts))
      = Except.error "InvalidPatternDefError" := by
  have htiny : rowNearZero (⟨1, 1, 0, 0⟩ : Row) = true := by
    norm_num [rowNearZero, isclose, rtolDefault]
  refine ⟨by decide, by decide, by rfl, ?_⟩
  have hpanel : panelFromNumeric true (padPanel 3 [⟨1, 1, 0, 0⟩, ⟨1, 1, 0, 0⟩, ⟨1, 1, 0, 0⟩])
      = Except.error "EmptyPanelError" := by
    apply panelFromNumeric_short
    simp [padPanel, List.filter, htiny, rowNearZero_zero]
  simp only [c1tinyPanels, c1sts, List.map_cons, List.map_nil]
  simp only [patternFromTensors, encodeStitches, List.map_cons, List.map_nil,
    List.isEmpty_cons, Bool.not_true, Bool.false_eq_true, if_false]
  have hdec0 : decodedPanels true [padPanel 3 [⟨1, 1, 0, 0⟩, ⟨1, 1, 0, 0⟩, ⟨1, 1, 0, 0⟩]] = [] := by
    simp [decodedPanels, hpanel]
  rw [hdec0]
  simp only [decodeStitches, decodeSide]
  rfl

/-- Witness for the amended C1 round trip: one panel of three long edges
and one stitch joining its edges 0 and 1, with L = 4. -/
theorem c1_stitch_round_trip_witness :
    ∃ pat, patternFromTensors true 4
        ([[⟨10, 0, 0, 0⟩, ⟨0, 10, 0, 0⟩, ⟨(-10), (-10), 0, 0⟩]].map (padPanel 4))
        (some (encodeStitches 4 [((0, 0), (0, 1))])) = Except.ok pat ∧
      pat.panelOrder = List.range ([[(⟨10, 0, 0, 0⟩ : Row), ⟨0, 10, 0, 0⟩,
        ⟨(-10), (-10), 0, 0⟩]] : List (List Row)).length ∧
      pat.stitches = [((0, 0), (0, 1))] :=
  c1_stitch_round_trip_amended 4
    [[⟨10, 0, 0, 0⟩, ⟨0, 10, 0, 0⟩, ⟨(-10), (-10), 0, 0⟩]]
    [((0, 0), (0, 1))]
    (by
      intro p hp
      simp only [List.mem_singleton] at hp
      subst hp
      refine ⟨by decide, by decide, ?_⟩
      intro r hr
      norm_num [rowNearZero, isclose, rtolDefault] at hr ⊢
      rcases hr with h | h | h <;> subst h <;> norm_num)
    (by decide)

/-- C10: `DatasetWrapper.new_split` tests the seed argument for truthiness,
not for being `None`: requesting a split with `random_seed = 0` stores the
current time as the seed, exactly as when no seed is given at all, so the
derived split coincides with the no-seed split for every dataset size and
never uses the requested value 0. -/
theorem c10_new_split_seed_zero_behaves_as_none
    (randPerm : Nat → Nat → List Nat) (rngState time vp n : Nat)
    (tp : Option Nat) :
    newSplitSeed (some 0) time = time ∧
    newSplitSeed (some 0) time = newSplitSeed none time ∧
    new_split randPerm rngState time vp tp (some 0) n
      = new_split randPerm rngState time vp tp none n := by
  refine ⟨rfl, rfl, rfl⟩

/-- C5: deriving the split is reproducible: `load_split` re-seeds the
shared generator with `split_info['random_seed']` before partitioning, so
its result is independent of the incoming generator state — in
particular a second call right after the first (same `split_info`, same
dataset length) returns identical training/validation/test index lists,
and two `new_split` calls with the same nonzero seed and percentages
agree regardless of the wall-clock times at which they run. -/
theorem c5_split_derivation_reproducible
    (randPerm : Nat → Nat → List Nat) (s1 s2 : Nat) (info : SplitInfo)
    (n : Nat) :
    (load_split randPerm s1 info n).1 = (load_split randPerm s2 info n).1 ∧
    (load_split randPerm s1 info n).1
      = (load_split randPerm (load_split randPerm s1 info n).2 info n).1 ∧
    ∀ (t1 t2 vp sd n2 : Nat) (tp : Option Nat), sd ≠ 0 →
      (new_split randPerm s1 t1 vp tp (some sd) n2).1
        = (new_split randPerm s2 t2 vp tp (some sd) n2).1 := by
  refine ⟨rfl, rfl, ?_⟩
  intro t1 t2 vp sd n2 tp hsd
  have hseed : newSplitSeed (some sd) t1 = newSplitSeed (some sd) t2 := by
    simp [newSplitSeed, pyTruthy, hsd]
  simp only [new_split, hseed]
  rfl

/-- Witness for C5 at a concrete generator, states, times and seed 42. -/
theorem c5_split_derivation_reproducible_witness :
    (new_split (fun s n => (List.range n).map (fun i => (i + s) % n))
        3 1000 10 (some 10) (some 42) 20).1
      = (new_split (fun s n => (List.range n).map (fun i => (i + s) % n))
        7 2000 10 (some 10) (some 42) 20).1 :=
  (c5_split_derivation_reproducible
    (fun s n => (List.range n).map (fun i => (i + s) % n)) 3 7
    ⟨42, 10, some 10⟩ 20).2.2 1000 2000 10 42 20 (some 10) (by decide)

/-- C6: both `GarmentPanelDataset.standardize` and
`Garment3DPatternFullDataset.standardize` give the configuration
priority: when a `standardize` entry is already present it is used as-is,
the call succeeds for every training argument, the stored entry is
unchanged, and the result does not depend on the supplied training subset
or on the statistics-computation pass at all. -/
theorem c6_standardize_config_has_priority {τ₁ τ₂ : Type}
    (c1 c1b : τ₁ → PanelStats) (c2 c2b : τ₂ → FullStats)
    (s : PanelStats) (fs : FullStats) (tf1 tf2 : List Transform)
    (tr1 tr1b : Option τ₁) (tr2 tr2b : Option τ₂) :
    (∃ r, garmentPanelStandardize c1 (some s) tf1 tr1 = Except.ok r
      ∧ r.1 = some s) ∧
    garmentPanelStandardize c1 (some s) tf1 tr1
      = garmentPanelStandardize c1b (some s) tf1 tr1b ∧
    (∃ r, garmentFullStandardize c2 (some fs) tf2 tr2 = Except.ok r
      ∧ r.1 = some fs) ∧
    garmentFullStandardize c2 (some fs) tf2 tr2
      = garmentFullStandardize c2b (some fs) tf2 tr2b := by
  exact ⟨⟨_, rfl, rfl⟩, rfl, ⟨_, rfl, rfl⟩, rfl⟩

/-- C9: evaluation of `SampleToTensor` at a concrete sample whose ground
truth is a plain array: the trailing comma in the non-dict branch makes
the returned `ground_truth` a 1-element tuple wrapping the tensor, not
the tensor itself (and the `None` sentinel is wrapped the same way),
while features and name are converted as documented. -/
theorem c9_sample_to_tensor_wraps_ground_truth_in_tuple :
    (sampleToTensor ⟨some [1, 2], some (GtValue.arr [3, 4]), "ex"⟩).ground_truth
      = TorchValue.tuple1 (TorchValue.tensor [3, 4]) ∧
    (sampleToTensor ⟨some [1, 2], some (GtValue.arr [3, 4]), "ex"⟩).features
      = TorchValue.tensor [1, 2] ∧
    (sampleToTensor ⟨some [1, 2], some (GtValue.arr [3, 4]), "ex"⟩).name = "ex" ∧
    sampleToTensor ⟨none, none, "e"⟩
      = ⟨TorchValue.tensor [], TorchValue.tuple1 (TorchValue.tensor []), "e"⟩ ∧
    (sampleToTensor ⟨some [1], some (GtValue.dict [("k", [5])]), "d"⟩).ground_truth
      = TorchValue.tensorDict [("k", [5])] := by
  exact ⟨rfl, rfl, rfl, rfl, rfl⟩

/-- C2: evaluation of `tags_to_stitches` at a tensor of two identical tags
whose components are all within 0.01 of the zero vector: the claim says
both positions are discarded as non-candidates (no stitch), but the code
— whose literals `0.01` and `0.1` land in `torch.isclose`'s RELATIVE
tolerance slot, leaving the absolute tolerance at 1e-8 — keeps both
positions and reports them as one stitch. -/
theorem c2_tags_to_stitches_near_zero_tag_not_discarded :
    tagsToStitches [[c2tag, c2tag]] = [((0, 0), (0, 1))] ∧
    c2tag.all (fun x => decide (|x| ≤ (1/100 : ℚ))) = true := by
  have habs : |(1:ℚ)/200| = 1/200 := abs_of_nonneg (by norm_num)
  have h1 : tagNearZero c2tag = false := by
    norm_num [tagNearZero, isclose, atolDefault, c2tag, habs]
  have h2 : tagsClose c2tag c2tag = true := by
    norm_num [tagsClose, isclose, atolDefault, c2tag, habs]
  refine ⟨?_, ?_⟩
  · simp [tagsToStitches, candidateEdges, pairCandidates, tagAt, List.range_succ, h1, h2]
  · norm_num [c2tag, habs]

/-- C8: `MayaGarment.is_static` — on the first call (no prior snapshot) the
garment reports not-static; otherwise the second component counts the
vertices whose per-vertex L1 displacement between the last two snapshots
strictly exceeds `threshold`, and the boolean is true exactly when that
count is zero or strictly below `allowed_non_static_percent` percent of
the total vertex count. -/
theorem c8_is_static_counts_displaced_vertices
    (lv current : List (ℚ × ℚ × ℚ)) (threshold allowed : ℚ)
    (hlen : lv.length = current.length) :
    isStatic none current threshold allowed = (false, none) ∧
    (isStatic (some lv) current threshold allowed).2
      = some ((current.zip lv).countP (fun p => decide (threshold < l1dist p.1 p.2))) ∧
    ((isStatic (some lv) current threshold allowed).1 = true ↔
      ((current.zip lv).countP (fun p => decide (threshold < l1dist p.1 p.2)) = 0 ∨
        (((current.zip lv).countP (fun p => decide (threshold < l1dist p.1 p.2)) : ℚ)
          < (current.length : ℚ) * (1/100) * allowed))) := by
  have hcount : (current.zip lv).countP (fun p => decide (threshold < l1dist p.1 p.2))
      = ((current.zip lv).filter (fun p => decide (threshold < l1dist p.1 p.2))).length := by
    simp [List.countP_eq_length_filter]
  refine ⟨rfl, ?_, ?_⟩
  · simp only [isStatic, hcount]
    split <;> rfl
  · simp only [isStatic, hcount]
    split
    · rename_i hcond
      simpa using hcond
    · rename_i hcond
      simpa using hcond

/-- Witness for C8: two 2-vertex snapshots where exactly one vertex moved
by more than the threshold, with a 60-percent allowance: reported static
with one non-static vertex. -/
theorem c8_is_static_witness :
    (isStatic (some [(0, 0, 0), (0, 0, 0)]) [(5, 0, 0), (0, 0, 0)] 1 60).2
      = some (([((5:ℚ), (0:ℚ), (0:ℚ)), (0, 0, 0)].zip [((0:ℚ), (0:ℚ), (0:ℚ)), (0, 0, 0)]).countP
          (fun p => decide ((1:ℚ) < l1dist p.1 p.2))) :=
  (c8_is_static_counts_displaced_vertices [(0, 0, 0), (0, 0, 0)]
    [(5, 0, 0), (0, 0, 0)] 1 60 (by simp)).2.1

/-- C7: `_get_norm_stats` returns the per-dimension min as shift, and a
scale that is never zero: `max - min` when min and max are not close
(`torch.isclose`, default tolerances), the min itself when they are close
but the min is not close to zero, and exactly 1 otherwise. -/
theorem c7_get_norm_stats_scale_nonzero
    (batch : List (List ℚ)) (d i : Nat) (hb : batch ≠ []) (hi : i < d) :
    (getNormStats batch d).1.getD i 0 = listMin (column batch i) ∧
    (getNormStats batch d).2.getD i 0 ≠ 0 ∧
    (isclose rtolDefault atolDefault (listMin (column batch i)) (listMax (column batch i)) = false →
      (getNormStats batch d).2.getD i 0
        = listMax (column batch i) - listMin (column batch i)) ∧
    (isclose rtolDefault atolDefault (listMin (column batch i)) (listMax (column batch i)) = true →
      isclose rtolDefault atolDefault (listMin (column batch i)) 0 = false →
      (getNormStats batch d).2.getD i 0 = listMin (column batch i)) ∧
    (isclose rtolDefault atolDefault (listMin (column batch i)) (listMax (column batch i)) = true →
      isclose rtolDefault atolDefault (listMin (column batch i)) 0 = true →
      (getNormStats batch d).2.getD i 0 = 1) := by
  have hget1 : (getNormStats batch d).1.getD i 0 = listMin (column batch i) := by
    simp [getNormStats, List.getD, List.getElem?_map, List.getElem?_range, hi]
  have hget2 : (getNormStats batch d).2.getD i 0
      = normScale (listMin (column batch i)) (listMax (column batch i)) := by
    simp [getNormStats, List.getD, List.getElem?_map, List.getElem?_range, hi]
  refine ⟨hget1, ?_, ?_, ?_, ?_⟩
  · rw [hget2]
    exact normScale_ne_zero _ _
  · intro hne
    rw [hget2, normScale, hne]
    simp
  · intro hcl hz
    rw [hget2, normScale, hcl, hz]
    simp
  · intro hcl hz
    rw [hget2, normScale, hcl, hz]
    simp

/-- Witness for C7 on the batch [[5, 0], [7, 0]] with d = 2, i = 0:
shift 5, scale 2 ≠ 0. -/
theorem c7_get_norm_stats_witness :
    (getNormStats [[5, 0], [7, 0]] 2).1.getD 0 0 = listMin (column [[5, 0], [7, 0]] 0) ∧
    (getNormStats [[5, 0], [7, 0]] 2).2.getD 0 0 ≠ 0 :=
  ⟨(c7_get_norm_stats_scale_nonzero [[5, 0], [7, 0]] 2 0 (by simp) (by decide)).1,
   (c7_get_norm_stats_scale_nonzero [[5, 0], [7, 0]] 2 0 (by simp) (by decide)).2.1⟩

end GPE
